import Mathlib

/-!
Scene controller of `src/hooks/useThreeAnimation.js`.

A shallow embedding of the React effect of `useThreeAnimation`: the scene
construction, the frame callback `animate`, the resize handler
`handleResize` and the effect cleanup.

* The browser state the hook reads and writes (the two refs, the window
  size, the DOM children of the mount target, the resize listeners, the
  pending animation frames) is the record `World`.
* The objects one run of the effect creates and closes over (camera,
  renderer, meshes, lines) are the record `Instance`.
* JavaScript numbers are a type parameter `α` with the primitives the
  source uses collected in `JSMath`; the general theorems hold for every
  choice of these primitives, IEEE-754 doubles included. Closed examples
  are evaluated in the term arithmetic `symMath`.
-/

namespace useThreeAnimation

/-! ## Numbers -/

/-- Number primitives of the JavaScript host that the source uses. -/
structure JSMath (α : Type) where
  /-- an integer literal such as `75` or `1000` -/
  ofNat : Nat → α
  /-- a decimal literal: `decimal m e` is `m / 10^e`, so `0.005 = decimal 5 3` -/
  decimal : Nat → Nat → α
  /-- the value a `Float32Array` holds after `undefined` is stored in it -/
  nan : α
  add : α → α → α
  mul : α → α → α
  div : α → α → α
  /-- `Math.cos` -/
  cos : α → α
  /-- `Math.sin` -/
  sin : α → α
  /-- `Math.PI` -/
  pi : α
  /-- rounding of a number stored in a `Float32Array` -/
  toFloat32 : α → α
  /-- the expression `v || 0` on a number `v` -/
  orZero : α → α

/-- Symbolic numbers: the free terms over the primitives of `JSMath`. They
give a concrete, decidable arithmetic for closed examples. -/
inductive Sym where
  | nat (n : Nat)
  | dec (m e : Nat)
  | nan
  | pi
  | random (k : Nat)
  | add (a b : Sym)
  | mul (a b : Sym)
  | div (a b : Sym)
  | cos (a : Sym)
  | sin (a : Sym)
  | f32 (a : Sym)
  | orZero (a : Sym)
deriving DecidableEq

/-- The term arithmetic on `Sym`. -/
def symMath : JSMath Sym where
  ofNat := Sym.nat
  decimal := Sym.dec
  nan := Sym.nan
  add := Sym.add
  mul := Sym.mul
  div := Sym.div
  cos := Sym.cos
  sin := Sym.sin
  pi := Sym.pi
  toFloat32 := Sym.f32
  orZero := Sym.orZero

/-! ## Data model -/

/-- A `THREE.Vector3` (also used for the x, y, z of a `THREE.Euler`). -/
structure Vector3 (α : Type) where
  x : α
  y : α
  z : α
deriving DecidableEq

/-- The geometries, materials and the texture the effect allocates with
`new`, named after the source variable and the loop indices of the
allocation. The renderer is identified by the `id` of its `Instance`. -/
inductive Resource where
  | numusLogoTexture
  | numusSphereGeometry
  | numusSphereMaterial
  | chainGeometry (index : Nat)
  | chainMaterial (index : Nat)
  | nodeGeometry (index i : Nat)
  | nodeMaterial (index i : Nat)
  | lineMaterial
  | lineGeometry (index i : Nat)
  | glowMaterial
  | glowSphereGeometry
deriving DecidableEq

/-- A `THREE.Mesh` without children. -/
structure Mesh (α : Type) where
  geometry : Resource
  material : Resource
  position : Vector3 α
  rotation : Vector3 α
deriving DecidableEq

/-- A ring: the `THREE.Mesh` called `chain` with its node children. -/
structure Chain (α : Type) where
  geometry : Resource
  material : Resource
  radius : Nat
  color : Nat
  rotation : Vector3 α
  children : List (Mesh α)
deriving DecidableEq

/-- A `THREE.Line` of `connectionLines`; `positionArray` is
`line.geometry.attributes.position.array`. -/
structure Line (α : Type) where
  geometry : Resource
  material : Resource
  positionArray : List α
  needsUpdate : Bool
deriving DecidableEq

/-- The `THREE.PerspectiveCamera`; `projectionAspect` is the aspect the
projection matrix was last computed from. -/
structure Camera (α : Type) where
  fov : α
  aspect : α
  near : α
  far : α
  position : Vector3 α
  projectionAspect : α
deriving DecidableEq

/-- The objects one run of the effect creates and its callbacks close over. -/
structure Instance (α : Type) where
  /-- identity of the `THREE.WebGLRenderer` created by this run -/
  id : Nat
  camera : Camera α
  /-- size last passed to `renderer.setSize` -/
  rendererSize : Nat × Nat
  numusSphere : Mesh α
  /-- `chainGroup.rotation` -/
  chainGroupRotation : Vector3 α
  /-- `chainGroup.children` -/
  chains : List (Chain α)
  /-- `connectionLines.children` -/
  connectionLines : List (Line α)
  glowSphere : Mesh α
  /-- number of `renderer.render(scene, camera)` calls -/
  renderCalls : Nat
  /-- log of `dispose()` calls on geometries and materials -/
  disposed : List Resource
deriving DecidableEq

/-- A DOM element: an element of the page, or the `domElement` (canvas) of
the renderer with the given identity. -/
inductive Element where
  | host (n : Nat)
  | canvas (renderer : Nat)
deriving DecidableEq

/-- The browser and React state around the hook. -/
structure World where
  /-- `containerRef.current` (`none` is `null`) -/
  containerRef : Option Nat
  /-- `rendererRef.current` (`none` is `null`), a renderer identity -/
  rendererRef : Option Nat
  innerWidth : Nat
  innerHeight : Nat
  /-- parent-child edges of the DOM: `(p, c)` when `c` is a child of host `p` -/
  dom : List (Nat × Element)
  /-- registered `resize` listeners of `window`, by instance identity -/
  resizeListeners : List Nat
  /-- callbacks passed to `requestAnimationFrame` and not yet run -/
  frameRequests : List Nat
  /-- log of `dispose()` calls on renderers -/
  rendererDisposals : List Nat
  /-- number of renderers created so far -/
  renderers : Nat
deriving DecidableEq

/-! ## Scene construction (source lines 10-131) -/

/-- `chainColors` (line 36). -/
def chainColors : List Nat := [0x4DBFFF, 0x1AACFF, 0x007ACC, 0x005C99, 0x003D66]

/-- `orbitRadii` (line 37). -/
def orbitRadii : List Nat := [25, 35, 45, 55, 65]

/-- The vector `(0, 0, 0)`. -/
def Vector3.zero (M : JSMath α) : Vector3 α := ⟨M.ofNat 0, M.ofNat 0, M.ofNat 0⟩

/-- `nodeCount` (line 54). -/
def nodeCount (index : Nat) : Nat := 5 + index * 2

/-- One iteration of the node loop (lines 56-71). -/
def makeNode (M : JSMath α) (radius index i : Nat) : Mesh α :=
  let angle := M.mul (M.mul (M.div (M.ofNat i) (M.ofNat (nodeCount index))) M.pi) (M.ofNat 2)
  { geometry := Resource.nodeGeometry index i
    material := Resource.nodeMaterial index i
    position := ⟨M.mul (M.cos angle) (M.ofNat radius), M.mul (M.sin angle) (M.ofNat radius), M.ofNat 0⟩
    rotation := Vector3.zero M }

/-- One iteration of `orbitRadii.forEach` (lines 40-72); `rand k` is the
result of the `k`-th call of `Math.random()` during this run. -/
def makeChain (M : JSMath α) (rand : Nat → α) (index radius : Nat) : Chain α :=
  { geometry := Resource.chainGeometry index
    material := Resource.chainMaterial index
    radius := radius
    color := chainColors.getD index 0
    rotation := ⟨M.mul (rand (2 * index)) M.pi, M.mul (rand (2 * index + 1)) M.pi, M.ofNat 0⟩
    children := (List.range (nodeCount index)).map (makeNode M radius index) }

/-- The children of `chainGroup` after `orbitRadii.forEach` (lines 39-73). -/
def makeChains (M : JSMath α) (rand : Nat → α) : List (Chain α) :=
  orbitRadii.enum.map (fun p => makeChain M rand p.1 p.2)

/-- An element of the array passed to `BufferGeometry.setFromPoints`: a
`THREE.Vector3`, or a typed array such as the result of
`Float32Array.prototype.slice`. -/
inductive Point (α : Type) where
  | vector3 (v : Vector3 α)
  | typedArray (a : List α)

/-- What `setFromPoints` stores in the `Float32Array` of the position
attribute for one point: `point.x, point.y, point.z || 0`. A typed array
has no property `x`, `y` or `z`: the reads give `undefined`, which a
`Float32Array` stores as NaN, and `undefined || 0` is `0`. -/
def Point.stored (M : JSMath α) : Point α → List α
  | Point.vector3 v => [M.toFloat32 v.x, M.toFloat32 v.y, M.toFloat32 (M.orZero v.z)]
  | Point.typedArray _ => [M.nan, M.nan, M.toFloat32 (M.ofNat 0)]

/-- The position array after `geometry.setFromPoints(points)`. -/
def setFromPoints (M : JSMath α) (points : List (Point α)) : List α :=
  points.flatMap (Point.stored M)

/-- The line created for one node (lines 86-90). -/
def makeLine (M : JSMath α) (index i : Nat) (node : Mesh α) : Line α :=
  { geometry := Resource.lineGeometry index i
    material := Resource.lineMaterial
    positionArray := setFromPoints M [Point.vector3 node.position, Point.vector3 (Vector3.zero M)]
    needsUpdate := false }

/-- The children of `connectionLines` after the nested `forEach` of lines
84-93: one line per node, in ring order and then node order. -/
def makeLines (M : JSMath α) (chains : List (Chain α)) : List (Line α) :=
  chains.enum.flatMap (fun c => c.2.children.enum.map (fun n => makeLine M c.1 n.1 n.2))

/-! ## The frame callback and the resize handler (lines 133-158) -/

/-- The body of `connectionLines.children.forEach` in `animate` (lines
142-146): the first point handed to `setFromPoints` is
`array.slice(3, 6)`, the second is a fresh `Vector3(0, 0, 0)`. -/
def updateLine (M : JSMath α) (line : Line α) : Line α :=
  { line with
    positionArray := setFromPoints M
      [Point.typedArray ((line.positionArray.drop 3).take 3), Point.vector3 (Vector3.zero M)]
    needsUpdate := true }

/-- The frame callback `animate` (lines 133-150). -/
def animate (M : JSMath α) (w : World) (s : Instance α) : World × Instance α :=
  match w.rendererRef with
  | none => (w, s)
  | some _ =>
    ({ w with frameRequests := w.frameRequests ++ [s.id] },
     { s with
       numusSphere := { s.numusSphere with
         rotation := { s.numusSphere.rotation with
           y := M.add s.numusSphere.rotation.y (M.decimal 5 3) } }
       chainGroupRotation :=
         { s.chainGroupRotation with
           y := M.add s.chainGroupRotation.y (M.decimal 1 3)
           x := M.add s.chainGroupRotation.x (M.decimal 5 4) }
       connectionLines := s.connectionLines.map (updateLine M)
       renderCalls := s.renderCalls + 1 })

/-- The resize handler `handleResize` (lines 153-158). -/
def handleResize (M : JSMath α) (w : World) (s : Instance α) : World × Instance α :=
  match w.rendererRef with
  | none => (w, s)
  | some _ =>
    let aspect := M.div (M.ofNat w.innerWidth) (M.ofNat w.innerHeight)
    (w, { s with
          camera := { s.camera with aspect := aspect, projectionAspect := aspect }
          rendererSize := (w.innerWidth, w.innerHeight) })

/-! ## DOM and listener primitives -/

/-- `parent.appendChild(child)`: the child leaves its former parent, if any,
and becomes the last child of `parent`. -/
def appendChild (dom : List (Nat × Element)) (parent : Nat) (child : Element) :
    List (Nat × Element) :=
  dom.filter (fun e => e.2 ≠ child) ++ [(parent, child)]

/-- `parent.removeChild(child)`: `none` when `child` is not a child of
`parent` (the DOM throws `NotFoundError`). -/
def removeChild (dom : List (Nat × Element)) (parent : Nat) (child : Element) :
    Option (List (Nat × Element)) :=
  if (parent, child) ∈ dom then some (dom.erase (parent, child)) else none

/-- The children of the host element `parent`. -/
def childrenOf (dom : List (Nat × Element)) (parent : Nat) : List Element :=
  (dom.filter (fun e => e.1 = parent)).map (fun e => e.2)

/-- Whether an element is a rendering surface (a renderer canvas). -/
def Element.isSurface : Element → Bool
  | Element.canvas _ => true
  | Element.host _ => false

/-- `window.addEventListener('resize', handler)`: a listener already
registered is not registered twice. -/
def addEventListener (listeners : List Nat) (handler : Nat) : List Nat :=
  if handler ∈ listeners then listeners else listeners ++ [handler]

/-- `window.removeEventListener('resize', handler)`. -/
def removeEventListener (listeners : List Nat) (handler : Nat) : List Nat :=
  listeners.erase handler

/-! ## The effect and its cleanup (lines 7-176) -/

/-- The scene as built by lines 10-131, before the first call of `animate`. -/
def initialInstance (M : JSMath α) (rand : Nat → α) (w : World) : Instance α :=
  let aspect := M.div (M.ofNat w.innerWidth) (M.ofNat w.innerHeight)
  let chains := makeChains M rand
  { id := w.renderers
    camera :=
      { fov := M.ofNat 75
        aspect := aspect
        near := M.decimal 1 1
        far := M.ofNat 1000
        position := ⟨M.ofNat 0, M.ofNat 30, M.ofNat 100⟩
        projectionAspect := aspect }
    rendererSize := (w.innerWidth, w.innerHeight)
    numusSphere :=
      { geometry := Resource.numusSphereGeometry
        material := Resource.numusSphereMaterial
        position := Vector3.zero M
        rotation := Vector3.zero M }
    chainGroupRotation := Vector3.zero M
    chains := chains
    connectionLines := makeLines M chains
    glowSphere :=
      { geometry := Resource.glowSphereGeometry
        material := Resource.glowMaterial
        position := Vector3.zero M
        rotation := Vector3.zero M }
    renderCalls := 0
    disposed := [] }

/-- The function passed to `useEffect` (lines 7-177). The result is the new
world and the instance whose cleanup function the effect returns, or `none`
when the effect returns `undefined`. -/
def effect (M : JSMath α) (rand : Nat → α) (w : World) : World × Option (Instance α) :=
  match w.containerRef with
  | none => (w, none)
  | some container =>
    let s0 := initialInstance M rand w
    let w1 := { w with
                renderers := w.renderers + 1
                rendererRef := some s0.id
                dom := appendChild w.dom container (Element.canvas s0.id) }
    let r := animate M w1 s0
    ({ r.1 with resizeListeners := addEventListener r.1.resizeListeners s0.id }, some r.2)

/-- An object visited by `scene.traverse`, with the class it was created
from. `THREE.Line` and `THREE.Group` extend `THREE.Object3D`, not
`THREE.Mesh`. -/
inductive Object3D where
  | scene
  | group
  | mesh (geometry material : Resource)
  | line (geometry material : Resource)
  | light
deriving DecidableEq

/-- The objects `scene.traverse` visits, in order: the scene, then each
child in the order of the `scene.add` calls, depth first. -/
def traverse (s : Instance α) : List Object3D :=
  [Object3D.scene, Object3D.mesh s.numusSphere.geometry s.numusSphere.material, Object3D.group]
    ++ s.chains.flatMap (fun c =>
        Object3D.mesh c.geometry c.material
          :: c.children.map (fun n => Object3D.mesh n.geometry n.material))
    ++ [Object3D.group]
    ++ s.connectionLines.map (fun l => Object3D.line l.geometry l.material)
    ++ [Object3D.light, Object3D.light,
        Object3D.mesh s.glowSphere.geometry s.glowSphere.material]

/-- The callback of `scene.traverse` in the cleanup (lines 167-170): the
resources it disposes for one object. -/
def disposeObject : Object3D → List Resource
  | Object3D.mesh geometry material => [geometry, material]
  | _ => []

/-- How a call ended: it returned, or it threw after the effects recorded
in the state. -/
inductive Outcome (σ : Type) where
  | returned (state : σ)
  | threw (state : σ)

/-- The state a call ended in. -/
def Outcome.state : Outcome σ → σ
  | Outcome.returned s => s
  | Outcome.threw s => s

/-- The cleanup function the effect returns (lines 161-176). -/
def cleanup (w : World) (s : Instance α) : Outcome (World × Instance α) :=
  let w1 := { w with resizeListeners := removeEventListener w.resizeListeners s.id }
  let detached :=
    match w1.containerRef, w1.rendererRef with
    | some container, some renderer => removeChild w1.dom container (Element.canvas renderer)
    | _, _ => some w1.dom
  match detached with
  | none => Outcome.threw (w1, s)
  | some dom =>
    Outcome.returned
      ({ w1 with
         dom := dom
         rendererDisposals :=
           match w1.rendererRef with
           | some renderer => w1.rendererDisposals ++ [renderer]
           | none => w1.rendererDisposals
         rendererRef := none },
       { s with disposed := s.disposed ++ (traverse s).flatMap disposeObject })

/-- A concrete page: an `800 x 600` window, the mount target `host 0`
attached to `containerRef`, nothing mounted yet. -/
def page : World :=
  { containerRef := some 0
    rendererRef := none
    innerWidth := 800
    innerHeight := 600
    dom := []
    resizeListeners := []
    frameRequests := []
    rendererDisposals := []
    renderers := 0 }

/-- The world and the instance after the effect ran on the concrete page. -/
def pageMounted : World × Instance Sym :=
  ((effect symMath Sym.random page).1,
    ((effect symMath Sym.random page).2).getD (initialInstance symMath Sym.random page))

/-! ## The browser driving the callbacks -/

/-- What the browser can do to a mounted instance between the effect and
its cleanup: run the pending animation frame, or resize the window. -/
inductive Tick where
  | frame
  | resize (width height : Nat)
deriving DecidableEq

/-- One browser step. A frame runs `animate` when the instance has a
pending request (the request is consumed); a resize updates the window size
and calls `handleResize` when it is a registered listener. -/
def tick (M : JSMath α) (t : Tick) (st : World × Instance α) : World × Instance α :=
  match t with
  | Tick.frame =>
    if st.2.id ∈ st.1.frameRequests then
      animate M { st.1 with frameRequests := st.1.frameRequests.erase st.2.id } st.2
    else st
  | Tick.resize width height =>
    let w := { st.1 with innerWidth := width, innerHeight := height }
    if st.2.id ∈ w.resizeListeners then handleResize M w st.2 else (w, st.2)

/-- A list of browser steps, in order. -/
def runTicks (M : JSMath α) (ticks : List Tick) (st : World × Instance α) :
    World × Instance α :=
  ticks.foldl (fun acc t => tick M t acc) st

/-- One mount/unmount cycle of the hook as React drives it: the value of
`containerRef.current` when the effect runs, the browser steps while
mounted, and the value of `containerRef.current` when the cleanup runs. -/
structure Cycle where
  container : Option Nat
  ticks : List Tick
  containerAtCleanup : Option Nat

/-- Run one cycle: the effect, the browser steps, then the cleanup the
effect returned, if it returned one. `rand n k` is the `k`-th random number
drawn by the run that creates renderer `n`. -/
def runCycle (M : JSMath α) (rand : Nat → Nat → α) (w : World) (c : Cycle) : World :=
  match effect M (rand w.renderers) { w with containerRef := c.container } with
  | (w1, none) => w1
  | (w1, some s) =>
    let st := runTicks M c.ticks (w1, s)
    (cleanup { st.1 with containerRef := c.containerAtCleanup } st.2).state.1

/-- Run a finite sequence of cycles. -/
def runCycles (M : JSMath α) (rand : Nat → Nat → α) (w : World) (cs : List Cycle) : World :=
  cs.foldl (runCycle M rand) w

/-! ## Theorems -/

/-- With a mount target present the effect builds the scene, calls `animate`
once, registers the resize listener and returns a cleanup function. -/
theorem effect_of_container (M : JSMath α) (rand : Nat → α) (w : World) (c : Nat)
    (h : w.containerRef = some c) :
    effect M rand w =
      ({ (animate M { w with
            renderers := w.renderers + 1
            rendererRef := some w.renderers
            dom := appendChild w.dom c (Element.canvas w.renderers) }
            (initialInstance M rand w)).1 with
          resizeListeners := addEventListener
            (animate M { w with
              renderers := w.renderers + 1
              rendererRef := some w.renderers
              dom := appendChild w.dom c (Element.canvas w.renderers) }
              (initialInstance M rand w)).1.resizeListeners w.renderers },
        some (animate M { w with
            renderers := w.renderers + 1
            rendererRef := some w.renderers
            dom := appendChild w.dom c (Element.canvas w.renderers) }
            (initialInstance M rand w)).2) := by
  simp [effect, h, initialInstance]

/-- Without a mount target the effect returns at once. -/
theorem effect_of_no_container (M : JSMath α) (rand : Nat → α) (w : World)
    (h : w.containerRef = none) :
    effect M rand w = (w, none) := by
  simp [effect, h]

/-- C1: with a mount target present, the effect builds exactly 5 rings, and
the ring at index `i` (radius `orbitRadii[i]`) has exactly `5 + 2 * i` node
children. -/
theorem ring_node_count (M : JSMath α) (rand : Nat → α) (w : World) (c : Nat)
    (h : w.containerRef = some c) :
    ∃ s, (effect M rand w).2 = some s ∧ s.chains.length = 5 ∧
      s.chains.map (fun r => r.radius) = [25, 35, 45, 55, 65] ∧
      ∀ i, i < 5 → (s.chains.get? i).map (fun r => r.children.length) = some (5 + 2 * i) := by
  rw [effect_of_container M rand w c h]
  refine ⟨_, rfl, rfl, rfl, ?_⟩
  intro i hi
  interval_cases i <;> rfl

/-- Witness of C1 on the concrete page. -/
theorem ring_node_count_witness :
    ∃ s, (effect symMath Sym.random page).2 = some s ∧ s.chains.length = 5 ∧
      s.chains.map (fun r => r.radius) = [25, 35, 45, 55, 65] ∧
      ∀ i, i < 5 → (s.chains.get? i).map (fun r => r.children.length) = some (5 + 2 * i) :=
  ring_node_count symMath Sym.random page 0 rfl

/-- C2: with a mount target present, the scene the effect builds contains
exactly 1 central sphere mesh, 5 ring meshes with child counts
`[5, 7, 9, 11, 13]` and exactly 45 connection lines, as many as there are
nodes over all rings, one per node. -/
theorem scene_census (M : JSMath α) (rand : Nat → α) (w : World) (c : Nat)
    (h : w.containerRef = some c) :
    ∃ s, (effect M rand w).2 = some s ∧
      (traverse s).count
        (Object3D.mesh Resource.numusSphereGeometry Resource.numusSphereMaterial) = 1 ∧
      s.chains.map (fun r => r.geometry) = (List.range 5).map Resource.chainGeometry ∧
      ((traverse s).filter (fun o => o ∈ (List.range 5).map
        (fun i => Object3D.mesh (Resource.chainGeometry i) (Resource.chainMaterial i)))).length = 5 ∧
      s.chains.map (fun r => r.children.length) = [5, 7, 9, 11, 13] ∧
      s.connectionLines.length = 45 ∧
      s.connectionLines.length = (s.chains.map (fun r => r.children.length)).sum ∧
      s.connectionLines.map (fun l => l.geometry) =
        s.chains.enum.flatMap (fun r =>
          (List.range r.2.children.length).map (Resource.lineGeometry r.1)) ∧
      ((traverse s).filter (fun o => o ∈ s.connectionLines.map
        (fun l => Object3D.line l.geometry l.material))).length = 45 := by
  rw [effect_of_container M rand w c h]
  refine ⟨_, rfl, ?_, rfl, ?_, rfl, rfl, rfl, rfl, ?_⟩
  · show (traverse (initialInstance symMath Sym.random page)).count _ = 1
    decide
  · show ((traverse (initialInstance symMath Sym.random page)).filter _).length = 5
    decide
  · show ((traverse (initialInstance symMath Sym.random page)).filter (fun o => o ∈
      (initialInstance symMath Sym.random page).connectionLines.map
        (fun l => Object3D.line l.geometry l.material))).length = 45
    decide

/-- Witness of C2 on the concrete page. -/
theorem scene_census_witness :
    ∃ s, (effect symMath Sym.random page).2 = some s ∧
      (traverse s).count
        (Object3D.mesh Resource.numusSphereGeometry Resource.numusSphereMaterial) = 1 ∧
      s.chains.map (fun r => r.geometry) = (List.range 5).map Resource.chainGeometry ∧
      ((traverse s).filter (fun o => o ∈ (List.range 5).map
        (fun i => Object3D.mesh (Resource.chainGeometry i) (Resource.chainMaterial i)))).length = 5 ∧
      s.chains.map (fun r => r.children.length) = [5, 7, 9, 11, 13] ∧
      s.connectionLines.length = 45 ∧
      s.connectionLines.length = (s.chains.map (fun r => r.children.length)).sum ∧
      s.connectionLines.map (fun l => l.geometry) =
        s.chains.enum.flatMap (fun r =>
          (List.range r.2.children.length).map (Resource.lineGeometry r.1)) ∧
      ((traverse s).filter (fun o => o ∈ s.connectionLines.map
        (fun l => Object3D.line l.geometry l.material))).length = 45 :=
  scene_census symMath Sym.random page 0 rfl

/-- C7: with the mount target absent the effect is a silent no-op: it
returns normally, returns no cleanup function and leaves the world
unchanged; in particular no renderer is created or stored in the renderer
reference, no child is appended, no resize listener is registered and no
frame is scheduled. -/
theorem effect_absent_container (M : JSMath α) (rand : Nat → α) (w : World)
    (h : w.containerRef = none) :
    effect M rand w = (w, none) ∧
      (effect M rand w).1.renderers = w.renderers ∧
      (effect M rand w).1.rendererRef = w.rendererRef ∧
      (effect M rand w).1.dom = w.dom ∧
      (effect M rand w).1.resizeListeners = w.resizeListeners ∧
      (effect M rand w).1.frameRequests = w.frameRequests := by
  have h0 : effect M rand w = (w, none) := by
    unfold effect
    rw [h]
  rw [h0]
  exact ⟨rfl, rfl, rfl, rfl, rfl, rfl⟩

/-- Witness of C7: the concrete page with its mount target detached. -/
theorem effect_absent_container_witness :
    ({ page with containerRef := none } : World).containerRef = none ∧
      effect symMath Sym.random { page with containerRef := none } =
        ({ page with containerRef := none }, none) :=
  ⟨rfl, (effect_absent_container symMath Sym.random { page with containerRef := none } rfl).1⟩

/-- C6: while the renderer reference is set, for positive window width and
height the resize handler sets the camera aspect to `innerWidth /
innerHeight` and the renderer size to `(innerWidth, innerHeight)`, and
changes nothing else: the world, the rotations, the rings with their nodes
and the lines are the same. -/
theorem handleResize_sets_aspect (M : JSMath α) (w : World) (s : Instance α) (r : Nat)
    (hr : w.rendererRef = some r) (_hw : 0 < w.innerWidth) (_hh : 0 < w.innerHeight) :
    (handleResize M w s).1 = w ∧
      (handleResize M w s).2.camera.aspect = M.div (M.ofNat w.innerWidth) (M.ofNat w.innerHeight) ∧
      (handleResize M w s).2.rendererSize = (w.innerWidth, w.innerHeight) ∧
      (handleResize M w s).2 =
        { s with
          camera := { s.camera with
            aspect := M.div (M.ofNat w.innerWidth) (M.ofNat w.innerHeight)
            projectionAspect := M.div (M.ofNat w.innerWidth) (M.ofNat w.innerHeight) }
          rendererSize := (w.innerWidth, w.innerHeight) } ∧
      (handleResize M w s).2.numusSphere = s.numusSphere ∧
      (handleResize M w s).2.chainGroupRotation = s.chainGroupRotation ∧
      (handleResize M w s).2.chains = s.chains ∧
      (handleResize M w s).2.connectionLines = s.connectionLines := by
  simp [handleResize, hr]

/-- Witness of C6: the scene built on the concrete page, after the window
was resized to `1024 x 768` with the renderer reference set. -/
theorem handleResize_sets_aspect_witness :
    (0 < 1024 ∧ 0 < 768) ∧
      (handleResize symMath
          { page with rendererRef := some 0, innerWidth := 1024, innerHeight := 768 }
          (initialInstance symMath Sym.random page)).2.camera.aspect
        = Sym.div (Sym.nat 1024) (Sym.nat 768) ∧
      (handleResize symMath
          { page with rendererRef := some 0, innerWidth := 1024, innerHeight := 768 }
          (initialInstance symMath Sym.random page)).2.rendererSize = (1024, 768) :=
  ⟨by decide,
    (handleResize_sets_aspect symMath
      { page with rendererRef := some 0, innerWidth := 1024, innerHeight := 768 }
      (initialInstance symMath Sym.random page) 0 rfl (by decide) (by decide)).2.1,
    (handleResize_sets_aspect symMath
      { page with rendererRef := some 0, innerWidth := 1024, innerHeight := 768 }
      (initialInstance symMath Sym.random page) 0 rfl (by decide) (by decide)).2.2.1⟩

/-! ### Frame lemmas: what the callbacks leave alone -/

/-- The objects of the scene are the same after `animate`. -/
theorem traverse_animate (M : JSMath α) (w : World) (s : Instance α) :
    traverse (animate M w s).2 = traverse s := by
  unfold animate
  split <;> simp [traverse, List.map_map, Function.comp_def, updateLine]

/-- `animate` touches only the pending frame requests of the world, and
neither the identity, the rings nor the disposal log of the instance. -/
theorem animate_preserves (M : JSMath α) (w : World) (s : Instance α) :
    (animate M w s).1.containerRef = w.containerRef ∧
      (animate M w s).1.rendererRef = w.rendererRef ∧
      (animate M w s).1.dom = w.dom ∧
      (animate M w s).1.resizeListeners = w.resizeListeners ∧
      (animate M w s).1.rendererDisposals = w.rendererDisposals ∧
      (animate M w s).2.id = s.id ∧
      (animate M w s).2.chains = s.chains ∧
      (animate M w s).2.disposed = s.disposed := by
  unfold animate
  split <;> simp

/-- `handleResize` leaves the world as it is, and the identity, the rings,
the lines and the disposal log of the instance. -/
theorem handleResize_preserves (M : JSMath α) (w : World) (s : Instance α) :
    (handleResize M w s).1 = w ∧
      (handleResize M w s).2.id = s.id ∧
      (handleResize M w s).2.chains = s.chains ∧
      (handleResize M w s).2.connectionLines = s.connectionLines ∧
      (handleResize M w s).2.disposed = s.disposed ∧
      traverse (handleResize M w s).2 = traverse s := by
  unfold handleResize
  split <;> simp [traverse]

/-- A browser step changes neither ref, nor the DOM, nor the listeners. -/
theorem tick_preserves (M : JSMath α) (t : Tick) (st : World × Instance α) :
    (tick M t st).1.containerRef = st.1.containerRef ∧
      (tick M t st).1.rendererRef = st.1.rendererRef ∧
      (tick M t st).1.dom = st.1.dom ∧
      (tick M t st).1.resizeListeners = st.1.resizeListeners ∧
      (tick M t st).1.rendererDisposals = st.1.rendererDisposals ∧
      (tick M t st).2.id = st.2.id ∧
      (tick M t st).2.chains = st.2.chains ∧
      (tick M t st).2.disposed = st.2.disposed ∧
      traverse (tick M t st).2 = traverse st.2 := by
  cases t with
  | frame =>
    unfold tick
    by_cases hm : st.2.id ∈ st.1.frameRequests
    · simp only [hm, if_true]
      have h := animate_preserves M { st.1 with frameRequests := st.1.frameRequests.erase st.2.id } st.2
      exact ⟨h.1, h.2.1, h.2.2.1, h.2.2.2.1, h.2.2.2.2.1, h.2.2.2.2.2.1, h.2.2.2.2.2.2.1,
        h.2.2.2.2.2.2.2, traverse_animate M _ st.2⟩
    · simp [hm]
  | resize width height =>
    unfold tick
    by_cases hm : st.2.id ∈ st.1.resizeListeners
    · simp only [hm, if_true]
      have h := handleResize_preserves M { st.1 with innerWidth := width, innerHeight := height } st.2
      refine ⟨?_, ?_, ?_, ?_, ?_, h.2.1, h.2.2.1, h.2.2.2.2.1, h.2.2.2.2.2⟩ <;> rw [h.1]
    · simp [hm]

/-- Any list of browser steps changes neither ref, nor the DOM, nor the
listeners. -/
theorem runTicks_preserves (M : JSMath α) (ticks : List Tick) (st : World × Instance α) :
    (runTicks M ticks st).1.containerRef = st.1.containerRef ∧
      (runTicks M ticks st).1.rendererRef = st.1.rendererRef ∧
      (runTicks M ticks st).1.dom = st.1.dom ∧
      (runTicks M ticks st).1.resizeListeners = st.1.resizeListeners ∧
      (runTicks M ticks st).1.rendererDisposals = st.1.rendererDisposals ∧
      (runTicks M ticks st).2.id = st.2.id ∧
      (runTicks M ticks st).2.chains = st.2.chains ∧
      (runTicks M ticks st).2.disposed = st.2.disposed ∧
      traverse (runTicks M ticks st).2 = traverse st.2 := by
  induction ticks generalizing st with
  | nil => simp [runTicks]
  | cons t ts ih =>
    have h1 := tick_preserves M t st
    have h2 := ih (tick M t st)
    simp only [runTicks, List.foldl_cons] at h2 ⊢
    refine ⟨h2.1.trans h1.1, h2.2.1.trans h1.2.1, h2.2.2.1.trans h1.2.2.1,
      h2.2.2.2.1.trans h1.2.2.2.1, h2.2.2.2.2.1.trans h1.2.2.2.2.1,
      h2.2.2.2.2.2.1.trans h1.2.2.2.2.2.1, h2.2.2.2.2.2.2.1.trans h1.2.2.2.2.2.2.1,
      h2.2.2.2.2.2.2.2.1.trans h1.2.2.2.2.2.2.2.1, h2.2.2.2.2.2.2.2.2.trans h1.2.2.2.2.2.2.2.2⟩

/-! ### Cleanup lemmas -/

/-- The cleanup removes the resize listener of its instance before anything
that can throw. -/
theorem cleanup_listeners (w : World) (s : Instance α) :
    (cleanup w s).state.1.resizeListeners = removeEventListener w.resizeListeners s.id := by
  unfold cleanup
  simp only
  split <;> rfl

/-- The cleanup when both refs are set and the canvas is a child of the
container: it returns, with the canvas detached and the reference cleared. -/
theorem cleanup_attached (w : World) (s : Instance α) (c r : Nat)
    (hc : w.containerRef = some c) (hr : w.rendererRef = some r)
    (hm : (c, Element.canvas r) ∈ w.dom) :
    cleanup w s = Outcome.returned
      ({ w with
         resizeListeners := removeEventListener w.resizeListeners s.id
         dom := w.dom.erase (c, Element.canvas r)
         rendererDisposals := w.rendererDisposals ++ [r]
         rendererRef := none },
       { s with disposed := s.disposed ++ (traverse s).flatMap disposeObject }) := by
  simp [cleanup, hc, hr, removeChild, hm]

/-- The cleanup when the container reference is cleared: it returns, and
the DOM is left as it was. -/
theorem cleanup_container_cleared (w : World) (s : Instance α)
    (hc : w.containerRef = none) :
    cleanup w s = Outcome.returned
      ({ w with
         resizeListeners := removeEventListener w.resizeListeners s.id
         rendererDisposals :=
           match w.rendererRef with
           | some renderer => w.rendererDisposals ++ [renderer]
           | none => w.rendererDisposals
         rendererRef := none },
       { s with disposed := s.disposed ++ (traverse s).flatMap disposeObject }) := by
  simp [cleanup, hc]

/-- Appending a child and removing it again leaves the other edges. -/
theorem erase_appendChild (dom : List (Nat × Element)) (c : Nat) (x : Element) :
    (appendChild dom c x).erase (c, x) = dom.filter (fun e => e.2 ≠ x) := by
  unfold appendChild
  rw [List.erase_append_right]
  · simp
  · simp [List.mem_filter]

/-- The world and the instance after the effect ran with a mount target. -/
theorem effect_mounted (M : JSMath α) (rand : Nat → α) (w : World) (c : Nat)
    (h : w.containerRef = some c) :
    ∃ w1 s, effect M rand w = (w1, some s) ∧ s.id = w.renderers ∧
      w1.containerRef = some c ∧ w1.rendererRef = some w.renderers ∧
      w1.dom = appendChild w.dom c (Element.canvas w.renderers) ∧
      w1.resizeListeners = addEventListener w.resizeListeners w.renderers ∧
      w1.rendererDisposals = w.rendererDisposals ∧
      w1.frameRequests = w.frameRequests ++ [w.renderers] := by
  rw [effect_of_container M rand w c h]
  exact ⟨_, _, rfl, rfl, h, rfl, rfl, rfl, rfl, rfl⟩

/-- C3 (as stated, refuted): on the concrete page the effect runs with the
mount target `host 0`, React then clears `containerRef.current`, and the
cleanup runs to completion; the canvas of the renderer is still a child of
the mount target. -/
theorem cleanup_leaves_surface_when_ref_cleared :
    ∃ w1 s w2 s2, effect symMath Sym.random page = (w1, some s) ∧
      cleanup { w1 with containerRef := none } s = Outcome.returned (w2, s2) ∧
      (childrenOf w2.dom 0).filter Element.isSurface = [Element.canvas s.id] :=
  ⟨_, _, _, _, rfl, rfl, by decide⟩

/-- C3 (amended): when the mount-target reference still holds the mount
target as the cleanup runs (here: after any browser steps, none of which
touches the reference), the cleanup returns and the canvas the effect
appended is no longer a child of the mount target; a mount target that had
no rendering surface before the effect has none after the cleanup. When
the reference has been cleared by then, the cleanup returns as well and
skips the detachment. -/
theorem cleanup_detaches_surface (M : JSMath α) (rand : Nat → α) (w : World) (c : Nat)
    (ticks : List Tick) (h : w.containerRef = some c) :
    ∃ w1 s, effect M rand w = (w1, some s) ∧
      Element.canvas s.id ∈ childrenOf w1.dom c ∧
      (∃ w2 s2, cleanup (runTicks M ticks (w1, s)).1 (runTicks M ticks (w1, s)).2
          = Outcome.returned (w2, s2) ∧
        Element.canvas s.id ∉ childrenOf w2.dom c ∧
        ((childrenOf w.dom c).filter Element.isSurface = [] →
          (childrenOf w2.dom c).filter Element.isSurface = [])) ∧
      ∃ w3 s3, cleanup { (runTicks M ticks (w1, s)).1 with containerRef := none }
          (runTicks M ticks (w1, s)).2 = Outcome.returned (w3, s3) ∧
        w3.dom = w1.dom := by
  obtain ⟨w1, s, he, hid, hc1, hr1, hd1, -, -, -⟩ := effect_mounted M rand w c h
  have hp := runTicks_preserves M ticks (w1, s)
  have hm : (c, Element.canvas w.renderers) ∈ (runTicks M ticks (w1, s)).1.dom := by
    rw [hp.2.2.1]
    simp [hd1, appendChild]
  refine ⟨w1, s, he, ?_, ⟨_, _,
    cleanup_attached _ _ c w.renderers (hp.1.trans hc1) (hp.2.1.trans hr1) hm, ?_, ?_⟩,
    ⟨_, _, cleanup_container_cleared _ _ rfl, hp.2.2.1⟩⟩
  · simp [hd1, hid, childrenOf, appendChild]
  · simp only [hp.2.2.1, hd1, erase_appendChild, hid]
    simp [childrenOf, List.mem_filter]
  · intro h0
    simp only [hp.2.2.1, hd1, erase_appendChild]
    simp only [childrenOf, List.filter_eq_nil_iff, List.mem_map, List.mem_filter] at h0 ⊢
    rintro x ⟨e, ⟨⟨he1, -⟩, he2⟩, rfl⟩
    exact h0 e.2 ⟨e, ⟨he1, he2⟩, rfl⟩

/-- Witness of C3 (amended) on the concrete page, with one frame and one
resize between the effect and the cleanup. -/
theorem cleanup_detaches_surface_witness :
    page.containerRef = some 0 ∧
    ∃ w1 s, effect symMath Sym.random page = (w1, some s) ∧
      Element.canvas s.id ∈ childrenOf w1.dom 0 ∧
      (∃ w2 s2, cleanup (runTicks symMath [Tick.frame, Tick.resize 1024 768] (w1, s)).1
          (runTicks symMath [Tick.frame, Tick.resize 1024 768] (w1, s)).2
          = Outcome.returned (w2, s2) ∧
        Element.canvas s.id ∉ childrenOf w2.dom 0 ∧
        ((childrenOf page.dom 0).filter Element.isSurface = [] →
          (childrenOf w2.dom 0).filter Element.isSurface = [])) ∧
      ∃ w3 s3, cleanup
          { (runTicks symMath [Tick.frame, Tick.resize 1024 768] (w1, s)).1 with
            containerRef := none }
          (runTicks symMath [Tick.frame, Tick.resize 1024 768] (w1, s)).2
          = Outcome.returned (w3, s3) ∧
        w3.dom = w1.dom :=
  ⟨rfl,
    cleanup_detaches_surface symMath Sym.random page 0 [Tick.frame, Tick.resize 1024 768] rfl⟩

/-- One cycle started with no listener registered ends with none. -/
theorem runCycle_listeners (M : JSMath α) (rand : Nat → Nat → α) (w : World) (c : Cycle)
    (h : w.resizeListeners = []) :
    (runCycle M rand w c).resizeListeners = [] := by
  rcases c with ⟨container, ticks, atCleanup⟩
  cases container with
  | none =>
    unfold runCycle
    rw [effect_of_no_container M _ { w with containerRef := none } rfl]
    exact h
  | some k =>
    obtain ⟨w1, s, he, hid, -, -, -, hl, -, -⟩ :=
      effect_mounted M (rand w.renderers) { w with containerRef := some k } k rfl
    have hp := runTicks_preserves M ticks (w1, s)
    unfold runCycle
    simp only [he]
    rw [cleanup_listeners]
    simp only [hp.2.2.2.1, hp.2.2.2.2.2.1, hl, hid, h]
    simp [addEventListener, removeEventListener]

/-- Any sequence of cycles started with no listener registered ends with
none. -/
theorem runCycles_listeners (M : JSMath α) (rand : Nat → Nat → α) (cs : List Cycle) (w : World)
    (h : w.resizeListeners = []) :
    (runCycles M rand w cs).resizeListeners = [] := by
  induction cs generalizing w with
  | nil => exact h
  | cons c cs ih => exact ih (runCycle M rand w c) (runCycle_listeners M rand w c h)

/-- C4: starting with no resize listener registered, after any finite
sequence of mount/unmount cycles no resize listener is registered; and in
every further mount with a mount target present the effect registers
exactly one listener (its own handler), which stays the only one through
any browser steps, and the cleanup removes exactly that one, whatever the
mount-target reference holds by then. -/
theorem resize_listener_balance (M : JSMath α) (rand : Nat → Nat → α) (w : World)
    (cs : List Cycle) (h : w.resizeListeners = []) :
    (runCycles M rand w cs).resizeListeners = [] ∧
      ∀ (c : Nat) (ticks : List Tick) (atCleanup : Option Nat),
        ∃ w1 s, effect M (rand (runCycles M rand w cs).renderers)
            { runCycles M rand w cs with containerRef := some c } = (w1, some s) ∧
          w1.resizeListeners = [s.id] ∧
          (runTicks M ticks (w1, s)).1.resizeListeners = [s.id] ∧
          (cleanup { (runTicks M ticks (w1, s)).1 with containerRef := atCleanup }
            (runTicks M ticks (w1, s)).2).state.1.resizeListeners = [] := by
  have h0 := runCycles_listeners M rand cs w h
  refine ⟨h0, fun c ticks atCleanup => ?_⟩
  obtain ⟨w1, s, he, hid, -, -, -, hl, -, -⟩ :=
    effect_mounted M (rand (runCycles M rand w cs).renderers)
      { runCycles M rand w cs with containerRef := some c } c rfl
  have hp := runTicks_preserves M ticks (w1, s)
  have hl1 : w1.resizeListeners = [s.id] := by
    rw [hl, hid]
    simp [h0, addEventListener]
  refine ⟨w1, s, he, hl1, hp.2.2.2.1.trans hl1, ?_⟩
  rw [cleanup_listeners]
  simp only [hp.2.2.2.1, hp.2.2.2.2.2.1, hl1]
  simp [removeEventListener]

/-- Witness of C4: three cycles on the concrete page (a plain one, one
whose reference is cleared before the cleanup, one without mount target). -/
theorem resize_listener_balance_witness :
    (runCycles symMath (fun _ => Sym.random) page
        [⟨some 0, [Tick.frame], some 0⟩, ⟨some 0, [Tick.resize 1024 768], none⟩,
          ⟨none, [], none⟩]).resizeListeners = [] :=
  (resize_listener_balance symMath (fun _ => Sym.random) page
    [⟨some 0, [Tick.frame], some 0⟩, ⟨some 0, [Tick.resize 1024 768], none⟩,
      ⟨none, [], none⟩] rfl).1

/-- C5 (as stated, refuted): on the concrete page the effect runs, its
cleanup runs, and the effect of the same hook runs again, storing a new
renderer in the shared `rendererRef`. The frame callback of the first,
torn-down instance then is no no-op: it schedules another frame, renders
and marks its lines for update. -/
theorem animate_after_cleanup_and_remount :
    ∃ w1 s1 w2 t1 w3 s2, effect symMath Sym.random page = (w1, some s1) ∧
      cleanup w1 s1 = Outcome.returned (w2, t1) ∧
      effect symMath Sym.random w2 = (w3, some s2) ∧
      animate symMath w3 t1 ≠ (w3, t1) ∧
      (animate symMath w3 t1).1.frameRequests = w3.frameRequests ++ [t1.id] ∧
      (animate symMath w3 t1).2.renderCalls = t1.renderCalls + 1 :=
  ⟨_, _, _, _, _, _, rfl, rfl, rfl, by decide, by decide, by decide⟩

/-- C5 (amended): a cleanup that returns leaves the renderer reference
cleared, and in every world in which the reference is cleared the frame
callback is a no-op: world and instance are returned unchanged (no rotation
or line geometry changed, no render call, no frame scheduled, the reference
still cleared), any number of times; the same holds for the resize
handler. -/
theorem animate_noop_while_ref_cleared (M : JSMath α) (w w2 : World) (s s2 : Instance α)
    (h : cleanup w s = Outcome.returned (w2, s2)) :
    w2.rendererRef = none ∧
      (∀ n : Nat, (fun st : World × Instance α => animate M st.1 st.2)^[n] (w2, s2) = (w2, s2)) ∧
      handleResize M w2 s2 = (w2, s2) ∧
      ∀ (v : World) (t : Instance α), v.rendererRef = none →
        animate M v t = (v, t) ∧ handleResize M v t = (v, t) := by
  have hnone : w2.rendererRef = none := by
    unfold cleanup at h
    simp only at h
    split at h
    · cases h
    · cases h
      rfl
  have hstep : ∀ (v : World) (t : Instance α), v.rendererRef = none →
      animate M v t = (v, t) ∧ handleResize M v t = (v, t) := by
    intro v t hv
    simp [animate, handleResize, hv]
  refine ⟨hnone, ?_, (hstep w2 s2 hnone).2, hstep⟩
  intro n
  induction n with
  | zero => rfl
  | succ n ih =>
    rw [Function.iterate_succ_apply', ih]
    exact (hstep w2 s2 hnone).1

/-- Witness of C5 (amended): the cleanup of the instance mounted on the
concrete page returns, and three frame callbacks after it change nothing. -/
theorem animate_noop_while_ref_cleared_witness :
    effect symMath Sym.random page = (pageMounted.1, some pageMounted.2) ∧
      cleanup pageMounted.1 pageMounted.2
        = Outcome.returned (cleanup pageMounted.1 pageMounted.2).state ∧
      (cleanup pageMounted.1 pageMounted.2).state.1.rendererRef = none ∧
      (fun st : World × Instance Sym => animate symMath st.1 st.2)^[3]
          (cleanup pageMounted.1 pageMounted.2).state
        = (cleanup pageMounted.1 pageMounted.2).state :=
  have h : cleanup pageMounted.1 pageMounted.2 = Outcome.returned
      ((cleanup pageMounted.1 pageMounted.2).state.1,
        (cleanup pageMounted.1 pageMounted.2).state.2) := rfl
  ⟨rfl, rfl, (animate_noop_while_ref_cleared symMath _ _ _ _ h).1,
    (animate_noop_while_ref_cleared symMath _ _ _ _ h).2.1 3⟩

/-- C8 (the code at the failing input): the instance mounted on the
concrete page has 45 connection lines; its cleanup returns, and the log of
disposed resources then holds the geometry and the material of each of the
52 meshes exactly once and the renderer once, but none of the 45 line
geometries and not the line material. -/
theorem cleanup_skips_line_resources :
    cleanup pageMounted.1 pageMounted.2
        = Outcome.returned (cleanup pageMounted.1 pageMounted.2).state ∧
      pageMounted.2.connectionLines.length = 45 ∧
      (∀ l ∈ pageMounted.2.connectionLines,
        l.geometry ∉ (cleanup pageMounted.1 pageMounted.2).state.2.disposed ∧
        l.material ∉ (cleanup pageMounted.1 pageMounted.2).state.2.disposed) ∧
      (cleanup pageMounted.1 pageMounted.2).state.2.disposed.count Resource.lineMaterial = 0 ∧
      (cleanup pageMounted.1 pageMounted.2).state.2.disposed.Nodup ∧
      (cleanup pageMounted.1 pageMounted.2).state.2.disposed.length = 104 ∧
      (cleanup pageMounted.1 pageMounted.2).state.1.rendererDisposals = [pageMounted.2.id] := by
  refine ⟨rfl, rfl, ?_, ?_, ?_, rfl, rfl⟩
  · decide
  · decide
  · decide

/-- In a world whose renderer reference is set, `animate` overwrites the
position array of every line: the first vertex becomes `(NaN, NaN, 0)`. -/
theorem animate_lines (M : JSMath α) (w : World) (s : Instance α) (r : Nat)
    (hr : w.rendererRef = some r) :
    (animate M w s).2.connectionLines.map (fun l => (l.positionArray, l.needsUpdate)) =
      s.connectionLines.map (fun _ =>
        ([M.nan, M.nan, M.toFloat32 (M.ofNat 0),
          M.toFloat32 (M.ofNat 0), M.toFloat32 (M.ofNat 0), M.toFloat32 (M.orZero (M.ofNat 0))],
          true)) := by
  simp [animate, hr, updateLine, setFromPoints, Point.stored, Vector3.zero, List.map_map,
    Function.comp_def]

/-- C9 (the code at the failing input): on the concrete page, after the
effect (which calls `animate` once) every connection line has the vertices
`(NaN, NaN, 0)` and `(0, 0, 0)` and is marked for update, while the first
node of the first ring sits at `(cos(0/5*pi*2)*25, sin(0/5*pi*2)*25, 0)`. -/
theorem animate_overwrites_line_vertices :
    effect symMath Sym.random page = (pageMounted.1, some pageMounted.2) ∧
      (∀ l ∈ pageMounted.2.connectionLines,
        l.positionArray =
          [Sym.nan, Sym.nan, Sym.f32 (Sym.nat 0),
            Sym.f32 (Sym.nat 0), Sym.f32 (Sym.nat 0), Sym.f32 (Sym.orZero (Sym.nat 0))] ∧
        l.needsUpdate = true) ∧
      (pageMounted.2.chains.head?.bind (fun r => r.children.head?)).map (fun n => n.position) =
        some ⟨Sym.mul (Sym.cos (Sym.mul (Sym.mul (Sym.div (Sym.nat 0) (Sym.nat 5)) Sym.pi)
                (Sym.nat 2))) (Sym.nat 25),
              Sym.mul (Sym.sin (Sym.mul (Sym.mul (Sym.div (Sym.nat 0) (Sym.nat 5)) Sym.pi)
                (Sym.nat 2))) (Sym.nat 25),
              Sym.nat 0⟩ := by
  refine ⟨rfl, ?_, rfl⟩
  decide

end useThreeAnimation
